import Mathlib

/-!
Verification of the balance ledger, payment-webhook consistency gate, job-failure
accounting and stale-job reclaimer of the scantext repository.

Conventions of the shallow embedding:
* Python `int` counters are modelled as `Int` (Python integers are unbounded and signed).
* Monetary amounts (`Numeric(10,2)` columns) are modelled as integer cents; a value that
  the provider API returns as a decimal string is kept as a `String` and parsed exactly
  (rationals, never floating point), mirroring `decimal.Decimal`.
* A SQLAlchemy session is modelled by explicit state passing: each handler takes the
  persisted database state and returns the state as it is after the handler finishes.
  A code path that returns without `session.commit()` discards its in-memory mutations
  (the `async with session` block rolls back on exit), so such paths return the input
  state unchanged.
* An ORM object that may be absent (`scalar_one_or_none`, a missing `UserBalance` row)
  is an `Option`; Python truthiness of an ORM object is `Option.isSome`.
-/

/-- A user's two-tier quota, from `app/models/user.py`: `free` is
`User.free_limits_remaining`; `balance` is the optional `UserBalance` row holding
`purchased_credits` (absent when the row was never created). -/
structure UserAccount where
  free : Int
  balance : Option Int
deriving DecidableEq, Repr

/-- Total quota visible to `spend_user_limit`:
`u.free_limits_remaining + (u.balance.purchased_credits if u.balance else 0)`. -/
def UserAccount.avail (u : UserAccount) : Int :=
  u.free + u.balance.getD 0

/-- `bot/services/user.py: spend_user_limit` (lines 51-82). Deducts `amount` preferring
the free tier, then the purchased tier, under a `FOR UPDATE` row lock; fails with no
mutation when the available total is below `amount`. Returns
`(success, deducted_free, deducted_paid, new account state)`; the source mutates the
locked row in place, modelled here by returning the new state. -/
def spend_user_limit (u : UserAccount) (amount : Int) : Bool × Int × Int × UserAccount :=
  let total_available := u.free + u.balance.getD 0
  if total_available < amount then
    (false, 0, 0, u)
  else if u.free ≥ amount then
    (true, amount, 0, { u with free := u.free - amount })
  else
    let deducted_free := u.free
    let deducted_paid := amount - deducted_free
    (true, deducted_free, deducted_paid,
      { free := 0, balance := u.balance.map (fun p => p - deducted_paid) })

/-- `bot/services/user.py: refund_user_limit` (lines 85-93). Unconditionally credits the
free portion back to `free_limits_remaining`; credits the paid portion to
`purchased_credits` only when the `UserBalance` row exists and `deducted_paid > 0`. -/
def refund_user_limit (u : UserAccount) (deducted_free deducted_paid : Int) : UserAccount :=
  { free := u.free + deducted_free,
    balance :=
      if deducted_paid > 0 then u.balance.map (fun p => p + deducted_paid)
      else u.balance }

/-- C6: `reserve` (= `spend_user_limit`) deducts preferring free then purchased, fails
with no mutation exactly when `free + purchased < amount`; and in the concrete
Scenario B (free=0, paid=3, reserve 2) it succeeds leaving paid=1 with the split
(reservedFree, reservedPaid) = (0, 2). -/
theorem C6_reserve_prefers_free_then_paid :
    (∀ (u : UserAccount) (amount : Int), 0 ≤ u.free → 0 ≤ amount →
      (u.avail < amount → spend_user_limit u amount = (false, 0, 0, u)) ∧
      (amount ≤ u.avail →
        (spend_user_limit u amount).1 = true ∧
        (spend_user_limit u amount).2.1 = min u.free amount ∧
        (spend_user_limit u amount).2.2.1 = amount - min u.free amount ∧
        (spend_user_limit u amount).2.2.2.free = u.free - min u.free amount ∧
        (spend_user_limit u amount).2.2.2.balance.getD 0
          = u.balance.getD 0 - (amount - min u.free amount) ∧
        (spend_user_limit u amount).2.2.2.balance.isSome = u.balance.isSome))
    ∧ spend_user_limit ⟨0, some 3⟩ 2 = (true, 0, 2, ⟨0, some 1⟩) := by
  constructor
  · intro u amount hfree hamt
    constructor
    · intro hlt
      unfold spend_user_limit
      simp only [UserAccount.avail] at hlt
      simp [hlt]
    · intro hge
      unfold spend_user_limit
      simp only [UserAccount.avail] at hge
      have hnot : ¬ (u.free + u.balance.getD 0 < amount) := by omega
      by_cases hf : u.free ≥ amount
      · have hmin : min u.free amount = amount := by omega
        simp [hnot, hf, hmin]
      · have hmin : min u.free amount = u.free := by omega
        cases hb : u.balance with
        | none =>
          exfalso
          rw [hb] at hge
          simp at hge
          omega
        | some p =>
          rw [hb] at hnot
          simp only [Option.getD] at hnot
          simp [spend_user_limit, hnot, hf, hmin, hb]
  · rfl

/-- Witness for C6 at a concrete input (free=2, purchased=5, amount=4). -/
theorem C6_reserve_prefers_free_then_paid_witness :
    (spend_user_limit ⟨2, some 5⟩ 4).2.2.2.balance.getD 0 = 5 - (4 - min 2 4) := by
  have h := (C6_reserve_prefers_free_then_paid.1 ⟨2, some 5⟩ 4 (by decide) (by decide)).2
    (by decide)
  exact h.2.2.2.2.1

/-- C8: a successful `spend_user_limit` immediately followed by `refund_user_limit` of
the same (deducted_free, deducted_paid) split restores the account state exactly. -/
theorem C8_release_inverts_reserve (u : UserAccount) (amount : Int)
    (h : (spend_user_limit u amount).1 = true) :
    refund_user_limit (spend_user_limit u amount).2.2.2
      (spend_user_limit u amount).2.1 (spend_user_limit u amount).2.2.1 = u := by
  obtain ⟨f, b⟩ := u
  by_cases h1 : f + b.getD 0 < amount
  · rw [show spend_user_limit ⟨f, b⟩ amount = (false, 0, 0, ⟨f, b⟩) from by
      unfold spend_user_limit; simp [h1]] at h
    simp at h
  · by_cases h2 : f ≥ amount
    · rw [show spend_user_limit ⟨f, b⟩ amount = (true, amount, 0, ⟨f - amount, b⟩) from by
        unfold spend_user_limit; simp [h1, h2]]
      unfold refund_user_limit
      simp
    · cases b with
      | none =>
        exfalso
        simp at h1
        omega
      | some p =>
        simp only [Option.getD_some] at h1
        have hdp : (0 : Int) < amount - f := by omega
        rw [show spend_user_limit ⟨f, some p⟩ amount
            = (true, f, amount - f, ⟨0, some (p - (amount - f))⟩) from by
          unfold spend_user_limit; simp [h1, h2]]
        unfold refund_user_limit
        simp [hdp]

/-- Witness for C8 at a concrete input (free=1, purchased=4, amount=3). -/
theorem C8_release_inverts_reserve_witness :
    refund_user_limit (spend_user_limit ⟨1, some 4⟩ 3).2.2.2
      (spend_user_limit ⟨1, some 4⟩ 3).2.1 (spend_user_limit ⟨1, some 4⟩ 3).2.2.1
      = ⟨1, some 4⟩ :=
  C8_release_inverts_reserve ⟨1, some 4⟩ 3 (by decide)

/-- C10: `refund_user_limit` with `deducted_paid > 0` on an account whose `UserBalance`
row is absent credits only the free portion; the paid portion is restored to no counter
and no error is raised (the function is total and returns normally). -/
theorem C10_refund_drops_paid_without_balance_row (u : UserAccount)
    (deducted_free deducted_paid : Int)
    (hb : u.balance = none) (hdp : 0 < deducted_paid) :
    refund_user_limit u deducted_free deducted_paid
      = { free := u.free + deducted_free, balance := none } := by
  unfold refund_user_limit
  simp [hb, hdp]

/-- Witness for C10 at a concrete input (free=2, no balance row, refund split (1, 3)). -/
theorem C10_refund_drops_paid_without_balance_row_witness :
    refund_user_limit ⟨2, none⟩ 1 3 = ⟨3, none⟩ :=
  C10_refund_drops_paid_without_balance_row ⟨2, none⟩ 1 3 rfl (by decide)

/-! ## Webhook consistency gate (`app/yookassa_webhook.py`) -/

/-- An IP address, already parsed: `v4` carries the 32-bit value, `v6` the 128-bit
value (as in Python `ipaddress.ip_address`). -/
inductive IpAddr where
  | v4 (bits : Nat)
  | v6 (bits : Nat)
deriving DecidableEq, Repr

/-- The result of handing a raw string to `ipaddress.ip_address`: either it parses to an
address or raises `ValueError` (`unparseable`). String-to-address parsing itself is the
Python stdlib's and is abstracted here. -/
inductive IpStr where
  | unparseable
  | addr (ip : IpAddr)
deriving DecidableEq, Repr

/-- A CIDR network as produced by `ipaddress.ip_network`: address bits and mask length.
`isV6` distinguishes the family; membership across families is `False` exactly as in
`ipaddress.__contains__`. -/
structure IpNet where
  isV6 : Bool
  addrBits : Nat
  maskLen : Nat
deriving DecidableEq, Repr

/-- `ip in network` of Python `ipaddress`: same family and equal network-order bits
above the host part. -/
def ipInNet (ip : IpAddr) (net : IpNet) : Bool :=
  match ip with
  | .v4 b => !net.isV6 && (b / 2 ^ (32 - net.maskLen) == net.addrBits / 2 ^ (32 - net.maskLen))
  | .v6 b => net.isV6 && (b / 2 ^ (128 - net.maskLen) == net.addrBits / 2 ^ (128 - net.maskLen))

/-- Bit value of a dotted-quad IPv4 address. -/
def ipv4Bits (a b c d : Nat) : Nat := ((a * 256 + b) * 256 + c) * 256 + d

/-- `YOOKASSA_IPS` (yookassa_webhook.py lines 80-88): the provider's published
networks. `2a02:5180::/32` has address bits `0x2a025180 <<< 96`. -/
def YOOKASSA_IPS : List IpNet :=
  [ ⟨false, ipv4Bits 185 71 76 0, 27⟩,
    ⟨false, ipv4Bits 185 71 77 0, 27⟩,
    ⟨false, ipv4Bits 77 75 153 0, 25⟩,
    ⟨false, ipv4Bits 77 75 156 11, 32⟩,
    ⟨false, ipv4Bits 77 75 156 35, 32⟩,
    ⟨false, ipv4Bits 77 75 154 128, 25⟩,
    ⟨true, 0x2a025180 * 2 ^ 96, 32⟩ ]

/-- `TRUSTED_PROXY_NETS` (lines 92-99): loopback and RFC1918/ULA ranges whose peers may
supply a forwarded-for header. `::1/128` is bit value 1; `fc00::/7` is `0xfc << 120`. -/
def TRUSTED_PROXY_NETS : List IpNet :=
  [ ⟨false, ipv4Bits 127 0 0 0, 8⟩,
    ⟨true, 1, 128⟩,
    ⟨false, ipv4Bits 10 0 0 0, 8⟩,
    ⟨false, ipv4Bits 172 16 0 0, 12⟩,
    ⟨false, ipv4Bits 192 168 0 0, 16⟩,
    ⟨true, 0xfc * 2 ^ 120, 7⟩ ]

/-- `_is_valid_yookassa_ip` (lines 102-113): `None`, empty and unparseable strings are
invalid; otherwise membership in any provider network. -/
def is_valid_yookassa_ip : Option IpStr → Bool
  | some (.addr ip) => YOOKASSA_IPS.any (fun net => ipInNet ip net)
  | _ => false

/-- `_is_trusted_proxy_ip` (lines 116-124). -/
def is_trusted_proxy_ip : Option IpStr → Bool
  | some (.addr ip) => TRUSTED_PROXY_NETS.any (fun net => ipInNet ip net)
  | _ => false

/-- The webhook request surface the handler inspects: HTTP method, the transport peer
address (`request.remote`), and the `X-Real-IP` and `X-Forwarded-For` headers. A header
field is `none` when absent or when its relevant part is empty after splitting and
stripping (the code treats those alike); otherwise it is the stripped first value. -/
structure WebhookRequest where
  method : String
  remote : Option IpStr
  xRealIp : Option IpStr
  xff : Option IpStr
deriving DecidableEq, Repr

/-- `_extract_effective_client_ip` (lines 127-149): a provider-range peer is used
directly; a peer that is not a trusted proxy is used as-is; only a trusted-proxy peer
may be overridden by `X-Real-IP`, then by the first `X-Forwarded-For` entry. -/
def _extract_effective_client_ip (r : WebhookRequest) : Option IpStr :=
  if is_valid_yookassa_ip r.remote then r.remote
  else if !is_trusted_proxy_ip r.remote then r.remote
  else
    match r.xRealIp with
    | some v => some v
    | none =>
      match r.xff with
      | some v => some v
      | none => r.remote

/-- `listStartsWith needle hay`: is `needle` a prefix of `hay`? (structural helper). -/
def listStartsWith : List Char → List Char → Bool
  | [], _ => true
  | _ :: _, [] => false
  | a :: as, b :: bs => a == b && listStartsWith as bs

/-- Substring occurrence on character lists (helper for Python `in`). -/
def listContainsSub (hay needle : List Char) : Bool :=
  match hay with
  | [] => needle.isEmpty
  | _ :: t => listStartsWith needle hay || listContainsSub t needle

/-- Python `needle in hay` on strings. -/
def strContains (hay needle : String) : Bool := listContainsSub hay.data needle.data

/-- Python `str.strip()`: remove leading and trailing whitespace. -/
def pyStrip (s : String) : String :=
  ⟨((s.data.dropWhile Char.isWhitespace).reverse.dropWhile Char.isWhitespace).reverse⟩

/-- Digits of a decimal literal as a natural number. -/
def digitsToNat (l : List Char) : Nat := l.foldl (fun a c => a * 10 + (c.toNat - 48)) 0

/-- Exact parsing of a plain decimal string `[+-]digits[.digits]` into
`decimal.Decimal`'s own representation — signed coefficient and fraction-digit count,
so the value is `coefficient / 10 ^ scale` (never floating point). Exponent and
special forms such as `NaN`/`Infinity` are omitted: the provider sends plain
two-decimal amounts, and the specials make `Decimal.quantize` raise, which the source
turns into `False` just like a parse failure. Returns `none` on anything else
(Python raises `InvalidOperation`). -/
def parseDecimal (s : String) : Option (Int × Nat) :=
  let chars := s.toList
  let signAndRest : Int × List Char :=
    match chars with
    | '-' :: r => (-1, r)
    | '+' :: r => (1, r)
    | r => (1, r)
  let sign := signAndRest.1
  let rest := signAndRest.2
  let intPart := rest.takeWhile Char.isDigit
  let rest2 := rest.dropWhile Char.isDigit
  match rest2 with
  | [] =>
    if intPart.isEmpty then none
    else some (sign * (digitsToNat intPart : Int), 0)
  | '.' :: frac =>
    if intPart.isEmpty && frac.isEmpty then none
    else if frac.all Char.isDigit then
      some (sign * ((digitsToNat intPart : Int) * 10 ^ frac.length + digitsToNat frac),
        frac.length)
    else none
  | _ => none

/-- Round `n / d` (for `d > 0`) to the nearest integer with ties to even — the default
`ROUND_HALF_EVEN` of `Decimal.quantize`. -/
def roundHalfEvenDiv (n d : Int) : Int :=
  let q := n.ediv d
  let r := n.emod d
  if 2 * r < d then q
  else if d < 2 * r then q + 1
  else if q % 2 = 0 then q else q + 1

/-- `_amount_matches` (lines 152-164): the API amount string is parsed exactly as a
decimal (never floating point), quantized to two places (`ROUND_HALF_EVEN`), and
compared to the transaction amount. Transaction amounts are `Numeric(10,2)` and are
modelled directly in integer cents, on which quantizing to two places is the identity.
`None`, empty and unparseable strings never match. -/
def _amount_matches (api_value : Option String) (txnAmountCents : Int) : Bool :=
  match api_value with
  | none => false
  | some s0 =>
    let s := pyStrip s0
    if s.data.isEmpty then false
    else
      match parseDecimal s with
      | none => false
      | some nd => roundHalfEvenDiv (nd.1 * 100) (10 ^ nd.2) == txnAmountCents

/-- `app/models/transaction.py: Transaction` — the payment intent: provider reference,
frozen amount (cents), status string (`pending`/`succeeded`/`canceled`/...), and the
frozen package snapshot `package_pages` taken at checkout (migration 007; written by
`bot/routers/payments.py` line 103). -/
structure Txn where
  id : Nat
  user_id : Nat
  yookassa_payment_id : Option String
  amount : Int
  status : String
  package_pages : Option Int
deriving DecidableEq, Repr

/-- `app/models/refund.py: RefundProcessed` — one row per processed provider refund id. -/
structure RefundRow where
  refund_id : String
  payment_id : String
deriving DecidableEq, Repr

/-- A `users` table row as the webhook reads it (`User` joined with its optional
`UserBalance`). -/
structure UserRow where
  id : Nat
  account : UserAccount
deriving DecidableEq, Repr

/-- The persisted state the webhook handler touches, plus `packSize`: the value
`get_pack_size(session)` returns at settlement time — the *live*
`PAYMENT_PACK_SIZE` setting (DB row or config default), not anything stored on the
transaction. -/
structure WebhookState where
  txns : List Txn
  users : List UserRow
  refunds : List RefundRow
  packSize : Int
deriving DecidableEq, Repr

/-- The payment object of a validated notification body (`YooKassaPaymentObject`): the
pydantic validator coerces a missing/None id to `""`. Metadata is only used for the
fire-and-forget user notification and is not part of the financial state. -/
structure PaymentObject where
  id : String
  status : String
deriving DecidableEq, Repr

/-- The refund object of a validated `refund.succeeded` body (`YooKassaRefundObject`). -/
structure RefundObject where
  id : String
  payment_id : String
deriving DecidableEq, Repr

/-- A webhook request body after JSON parsing: `refundBody` when `event` is
`"refund.succeeded"` (with `none` when pydantic validation fails), otherwise
`paymentBody` carrying the event string (with `none` when validation fails). A JSON
parse failure is `none` at the `Option WebhookBody` level. -/
inductive WebhookBody where
  | refundBody (obj : Option RefundObject)
  | paymentBody (event : String) (obj : Option PaymentObject)
deriving DecidableEq, Repr

/-- The provider's `GET /payments/{id}` read-back (`get_payment_status`): a network
failure raises (`failure`), otherwise a JSON object whose `status` and
`amount.value` fields may each be absent. -/
inductive ApiResult where
  | failure
  | ok (status : Option String) (amount_value : Option String)
deriving DecidableEq, Repr

/-- HTTP status of the handler's response. -/
inductive HttpResponse where
  | ok
  | badRequest
  | forbidden
  | methodNotAllowed
  | serverError
deriving DecidableEq, Repr

/-- Commit of the cancel path: persist the payload's `object.status` onto the located
transaction (line 287 `txn.status = status`, committed at line 310). -/
def commitTxnStatus (s : WebhookState) (txnId : Nat) (st : String) : WebhookState :=
  { s with txns := s.txns.map (fun t => if t.id == txnId then { t with status := st } else t) }

/-- Commit of the settlement path (lines 287, 388-396): persist the payload status onto
the transaction, create the `UserBalance` row if absent, and credit
`purchased_credits += get_pack_size(session)` — the live setting, `s.packSize`. -/
def settleCredit (s : WebhookState) (txnId userId : Nat) (st : String) : WebhookState :=
  { s with
    txns := s.txns.map (fun t => if t.id == txnId then { t with status := st } else t),
    users := s.users.map (fun u =>
      if u.id == userId then
        { u with account := { u.account with
            balance := some (u.account.balance.getD 0 + s.packSize) } }
      else u) }

/-- `yookassa_webhook_handler` (lines 167-420), as a function from persisted state to
persisted state and response. Inputs: the request's IP surface, the
`settings.WEBHOOK_HOST` string, the parsed body, and the provider read-back that
`get_payment_status` would return. Paths that return without `session.commit()` leave
the state unchanged (session rollback on exit); `async_session_factory` is assumed
initialized. Outbound chat notifications are fire-and-forget, sent after commit, and
carry no persisted state, so they are not part of the state. -/
def yookassa_webhook_handler (req : WebhookRequest) (webhookHost : String)
    (body : Option WebhookBody) (api : ApiResult) (s : WebhookState) :
    WebhookState × HttpResponse :=
  if req.method != "POST" then (s, .methodNotAllowed)
  else if !is_valid_yookassa_ip (_extract_effective_client_ip req)
      && !strContains webhookHost "ngrok" then
    (s, .forbidden)
  else
    match body with
    | none => (s, .badRequest)
    | some (.refundBody none) => (s, .badRequest)
    | some (.refundBody (some o)) =>
      if o.id == "" then (s, .ok)
      else if s.refunds.any (fun r => r.refund_id == o.id) then (s, .ok)
      else ({ s with refunds := s.refunds ++ [⟨o.id, o.payment_id⟩] }, .ok)
    | some (.paymentBody _ none) => (s, .badRequest)
    | some (.paymentBody event (some o)) =>
      if !(event == "payment.succeeded" || event == "payment.canceled") then (s, .ok)
      else if o.id == "" then (s, .ok)
      else
        match s.txns.find? (fun t => t.yookassa_payment_id == some o.id) with
        | none => (s, .ok)
        | some txn =>
          if txn.status == "succeeded" || txn.status == "canceled" then (s, .ok)
          else if event == "payment.canceled" then
            (commitTxnStatus s txn.id o.status, .ok)
          else
            match api with
            | .failure => (s, .serverError)
            | .ok apiStatus apiValue =>
              if apiStatus != some "succeeded" then (s, .ok)
              else if !_amount_matches apiValue txn.amount then (s, .ok)
              else
                match s.users.find? (fun u => u.id == txn.user_id) with
                | none => (s, .ok)
                | some _ => (settleCredit s txn.id txn.user_id o.status, .ok)

/-- C1: at the concrete settlement input below — pending transaction found by provider
reference, read-back status `succeeded`, amount matching exactly — the handler credits
the account with the live `PAYMENT_PACK_SIZE` setting (`get_pack_size`, here 10), not
the transaction's frozen `package_pages` snapshot (here 50). The snapshot the claim
requires is present on the row and ignored; the code contradicts its own documentation
(`Transaction.package_pages` is commented "для начисления по webhook" and
`tests/test_webhook_crediting.py` states `credits = txn.package_pages or
get_pack_size()`), so this is a bug in the code, not in the claim. -/
theorem C1_settlement_credits_live_setting_not_snapshot :
    (yookassa_webhook_handler
        ⟨"POST", some (.addr (.v4 (ipv4Bits 185 71 76 5))), none, none⟩ ""
        (some (.paymentBody "payment.succeeded" (some ⟨"P1", "succeeded"⟩)))
        (.ok (some "succeeded") (some "225.00"))
        ⟨[⟨1, 7, some "P1", 22500, "pending", some 50⟩], [⟨7, ⟨0, some 0⟩⟩], [], 10⟩).1
      = ⟨[⟨1, 7, some "P1", 22500, "succeeded", some 50⟩], [⟨7, ⟨0, some 10⟩⟩], [], 10⟩
    ∧ ((10 : Int) ≠ 50) := by
  decide

/-- Has this delivery's reference already been settled in state `s`? For a refund body:
its (non-empty) refund id already has a `refunds_processed` row. For a payment body
with a recognized event: the transaction located by the provider reference is in a
terminal status. -/
def deliverySettled (body : Option WebhookBody) (s : WebhookState) : Bool :=
  match body with
  | some (.refundBody (some o)) =>
    o.id != "" && s.refunds.any (fun r => r.refund_id == o.id)
  | some (.paymentBody event (some o)) =>
    (event == "payment.succeeded" || event == "payment.canceled") && o.id != "" &&
    (match s.txns.find? (fun t => t.yookassa_payment_id == some o.id) with
     | some t => t.status == "succeeded" || t.status == "canceled"
     | none => false)
  | _ => false

/-- Once a delivery's reference is settled, re-delivering the identical notification is
a success no-op: `200 ok` and no state change. -/
theorem settled_delivery_noop (req : WebhookRequest) (host : String)
    (body : Option WebhookBody) (api : ApiResult) (s : WebhookState)
    (hpost : req.method = "POST")
    (hip : (!is_valid_yookassa_ip (_extract_effective_client_ip req)
        && !strContains host "ngrok") = false)
    (hs : deliverySettled body s = true) :
    yookassa_webhook_handler req host body api s = (s, .ok) := by
  cases body with
  | none => simp [deliverySettled] at hs
  | some b =>
    cases b with
    | refundBody o =>
      cases o with
      | none => simp [deliverySettled] at hs
      | some obj =>
        simp only [deliverySettled, Bool.and_eq_true] at hs
        obtain ⟨hid, hdup⟩ := hs
        have hne : obj.id ≠ "" := by simpa using hid
        simp [yookassa_webhook_handler, hpost, hip, hne, hdup]
    | paymentBody event o =>
      cases o with
      | none => simp [deliverySettled] at hs
      | some obj =>
        simp only [deliverySettled, Bool.and_eq_true] at hs
        obtain ⟨⟨hev, hid⟩, hterm⟩ := hs
        have hne : obj.id ≠ "" := by simpa using hid
        cases hfind : s.txns.find? (fun t => t.yookassa_payment_id == some obj.id) with
        | none => rw [hfind] at hterm; simp at hterm
        | some txn =>
          rw [hfind] at hterm
          have hterm' : (txn.status == "succeeded" || txn.status == "canceled") = true := hterm
          simp [yookassa_webhook_handler, hpost, hip, hne, hev, hfind, hterm']

/-- C2: replaying a webhook notification with identical content after the first settled
delivery is a success no-op. The hypothesis says the first delivery left the body's
reference settled (payment intent terminal / refund id recorded); the conclusion's
state equality means the intent stays in the same terminal state, no second credit is
applied, and no second `RefundProcessed` row is inserted. -/
theorem C2_replay_after_settled_delivery_is_noop (req : WebhookRequest) (host : String)
    (body : Option WebhookBody) (api : ApiResult) (s : WebhookState)
    (hpost : req.method = "POST")
    (hip : (!is_valid_yookassa_ip (_extract_effective_client_ip req)
        && !strContains host "ngrok") = false)
    (hsettled : deliverySettled body (yookassa_webhook_handler req host body api s).1
      = true) :
    yookassa_webhook_handler req host body api
        (yookassa_webhook_handler req host body api s).1
      = ((yookassa_webhook_handler req host body api s).1, .ok) :=
  settled_delivery_noop req host body api _ hpost hip hsettled

/-- Witness for C2: a `refund.succeeded` notification for refund "R1" delivered twice;
the first delivery inserts the single `RefundProcessed` row, the replay is a no-op. -/
theorem C2_replay_after_settled_delivery_is_noop_witness :
    yookassa_webhook_handler
        ⟨"POST", some (.addr (.v4 (ipv4Bits 185 71 76 5))), none, none⟩ ""
        (some (.refundBody (some ⟨"R1", "P1"⟩))) .failure
        (yookassa_webhook_handler
          ⟨"POST", some (.addr (.v4 (ipv4Bits 185 71 76 5))), none, none⟩ ""
          (some (.refundBody (some ⟨"R1", "P1"⟩))) .failure ⟨[], [], [], 10⟩).1
      = ((yookassa_webhook_handler
          ⟨"POST", some (.addr (.v4 (ipv4Bits 185 71 76 5))), none, none⟩ ""
          (some (.refundBody (some ⟨"R1", "P1"⟩))) .failure ⟨[], [], [], 10⟩).1, .ok) :=
  C2_replay_after_settled_delivery_is_noop _ _ _ _ _ rfl (by decide) (by decide)

/-- C4: a settlement attempt whose read-back amount does not match the intent's frozen
amount (exact decimal comparison to two places) performs no credit and no state change:
the handler answers `200 ok` with the state untouched, so the intent — non-terminal by
hypothesis — remains pending. The in-memory `txn.status` assignment on this path is
never committed (session rollback), hence absent from the resulting state. -/
theorem C4_amount_mismatch_no_credit_no_state_change (req : WebhookRequest)
    (host : String) (s : WebhookState) (o : PaymentObject) (txn : Txn)
    (apiValue : Option String)
    (hpost : req.method = "POST")
    (hip : (!is_valid_yookassa_ip (_extract_effective_client_ip req)
        && !strContains host "ngrok") = false)
    (hne : o.id ≠ "")
    (hfind : s.txns.find? (fun t => t.yookassa_payment_id == some o.id) = some txn)
    (hpend : (txn.status == "succeeded" || txn.status == "canceled") = false)
    (hmis : _amount_matches apiValue txn.amount = false) :
    yookassa_webhook_handler req host
        (some (.paymentBody "payment.succeeded" (some o)))
        (.ok (some "succeeded") apiValue) s
      = (s, .ok) := by
  simp [yookassa_webhook_handler, hpost, hip, hne, hfind, hpend, hmis]

/-- Witness for C4: intent frozen at 225.00 (22500 cents), provider reads back
"225.01" — off by one cent — and the handler changes nothing. -/
theorem C4_amount_mismatch_no_credit_no_state_change_witness :
    yookassa_webhook_handler
        ⟨"POST", some (.addr (.v4 (ipv4Bits 185 71 76 5))), none, none⟩ ""
        (some (.paymentBody "payment.succeeded" (some ⟨"P1", "succeeded"⟩)))
        (.ok (some "succeeded") (some "225.01"))
        ⟨[⟨1, 7, some "P1", 22500, "pending", some 50⟩], [⟨7, ⟨0, some 0⟩⟩], [], 10⟩
      = (⟨[⟨1, 7, some "P1", 22500, "pending", some 50⟩], [⟨7, ⟨0, some 0⟩⟩], [], 10⟩,
        .ok) :=
  C4_amount_mismatch_no_credit_no_state_change
    ⟨"POST", some (.addr (.v4 (ipv4Bits 185 71 76 5))), none, none⟩ ""
    ⟨[⟨1, 7, some "P1", 22500, "pending", some 50⟩], [⟨7, ⟨0, some 0⟩⟩], [], 10⟩
    ⟨"P1", "succeeded"⟩ ⟨1, 7, some "P1", 22500, "pending", some 50⟩ (some "225.01")
    rfl (by decide) (by decide) (by decide) (by decide) (by decide)

/-- C5 counterexample: a request whose resolved client address (8.8.8.8) fails the
provider-range check is nevertheless not rejected and even settles a payment (state
change) because `settings.WEBHOOK_HOST` contains "ngrok" — the development bypass at
lines 177-181 skips the 403. This refutes the claim as stated, which requires every
request failing the address check to be rejected with no state change. -/
theorem C5_counterexample_ngrok_bypass :
    is_valid_yookassa_ip (_extract_effective_client_ip
      ⟨"POST", some (.addr (.v4 (ipv4Bits 8 8 8 8))), none, none⟩) = false
    ∧ (yookassa_webhook_handler ⟨"POST", some (.addr (.v4 (ipv4Bits 8 8 8 8))), none, none⟩
        "https://x.ngrok.io"
        (some (.paymentBody "payment.succeeded" (some ⟨"P1", "succeeded"⟩)))
        (.ok (some "succeeded") (some "225.00"))
        ⟨[⟨1, 7, some "P1", 22500, "pending", some 50⟩], [⟨7, ⟨0, some 0⟩⟩], [], 10⟩).2
      ≠ .forbidden
    ∧ (yookassa_webhook_handler ⟨"POST", some (.addr (.v4 (ipv4Bits 8 8 8 8))), none, none⟩
        "https://x.ngrok.io"
        (some (.paymentBody "payment.succeeded" (some ⟨"P1", "succeeded"⟩)))
        (.ok (some "succeeded") (some "225.00"))
        ⟨[⟨1, 7, some "P1", 22500, "pending", some 50⟩], [⟨7, ⟨0, some 0⟩⟩], [], 10⟩).1
      ≠ ⟨[⟨1, 7, some "P1", 22500, "pending", some 50⟩], [⟨7, ⟨0, some 0⟩⟩], [], 10⟩ := by
  decide

/-- C5 (amended): a forwarded address is resolved from the `X-Real-IP` /
`X-Forwarded-For` headers only when the immediate peer is a trusted proxy — otherwise
the peer address is used as-is; and any POST request whose resolved client address is
outside the provider's published ranges is rejected with 403 and no state change,
*unless* the configured webhook host contains the substring "ngrok" (a development
bypass that skips the address check). -/
theorem C5_ip_gate_amended :
    (∀ req : WebhookRequest, is_trusted_proxy_ip req.remote = false →
      _extract_effective_client_ip req = req.remote)
    ∧ (∀ (req : WebhookRequest) (host : String) (body : Option WebhookBody)
        (api : ApiResult) (s : WebhookState),
        req.method = "POST" →
        is_valid_yookassa_ip (_extract_effective_client_ip req) = false →
        strContains host "ngrok" = false →
        yookassa_webhook_handler req host body api s = (s, .forbidden)) := by
  constructor
  · intro req h
    unfold _extract_effective_client_ip
    by_cases hv : is_valid_yookassa_ip req.remote
    · simp [hv]
    · simp [hv, h]
  · intro req host body api s hpost hbad hng
    simp [yookassa_webhook_handler, hpost, hbad, hng]

/-- Witness for C5 (amended): both parts at concrete inputs — an untrusted peer is
used as-is, and a non-provider address with a non-ngrok host is rejected 403 with the
state unchanged. -/
theorem C5_ip_gate_amended_witness :
    _extract_effective_client_ip
        ⟨"POST", some (.addr (.v4 (ipv4Bits 8 8 8 8))), some .unparseable, none⟩
      = some (.addr (.v4 (ipv4Bits 8 8 8 8)))
    ∧ yookassa_webhook_handler ⟨"POST", some (.addr (.v4 (ipv4Bits 8 8 8 8))), none, none⟩
        "https://bot.example.com" none .failure ⟨[], [], [], 10⟩
      = (⟨[], [], [], 10⟩, .forbidden) :=
  ⟨C5_ip_gate_amended.1 _ (by decide),
   C5_ip_gate_amended.2 _ _ _ _ _ rfl (by decide) (by decide)⟩

/-! ## Document processing orchestrator and reclaimer (`celery_app.py`) -/

/-- Python `str.lower()` (the needles compared against are plain ASCII). -/
def pyLower (s : String) : String := ⟨s.data.map Char.toLower⟩

/-- Classification of a task failure at `celery_app.py` lines 471-476: the error text
contains "openrouter", "api_key" or "rate" case-insensitively, or "429" verbatim. -/
def is_llm_or_config_error (e : String) : Bool :=
  strContains (pyLower e) "openrouter" || strContains (pyLower e) "api_key"
    || strContains (pyLower e) "rate" || strContains e "429"

/-- How the task returns to the queue runtime: normally, or via `self.retry` with the
computed countdown (line 501). -/
inductive TaskOutcome where
  | finished
  | retryRequested (countdown : Nat)
deriving DecidableEq, Repr

/-- What the `except` branch of `process_document_task` leaves behind. -/
structure FailureResult where
  account : UserAccount
  docStatus : String
  refundedToFree : Int
  userToldRefunded : Bool
  outcome : TaskOutcome
deriving DecidableEq, Repr

/-- The `except Exception` branch of `process_document_task` (`celery_app.py` lines
462-502), for a job whose document row exists: the job is marked error; only when
`is_llm_or_config_error` does the code credit anything back, and then it credits the
whole `total_deducted_limits` to `User.free_limits_remaining` (the free tier) — the
recorded free/paid split (`Document.deducted_free`/`deducted_paid`) is never consulted
and `purchased_credits` is never restored. Both notification texts tell the user
"Ваш лимит возвращён" (your limit has been returned), including the branch that
refunds nothing and re-raises into the retry machinery. -/
def handle_task_failure (errMsg : String) (totalDeducted : Int)
    (retries maxRetries : Nat) (u : UserAccount) : FailureResult :=
  let isLlm := is_llm_or_config_error errMsg
  { account := if isLlm then { u with free := u.free + totalDeducted } else u,
    docStatus := "error",
    refundedToFree := if isLlm then totalDeducted else 0,
    userToldRefunded := true,
    outcome :=
      if isLlm then .finished
      else .retryRequested (if retries < maxRetries then min (2 ^ retries) 60 else 60) }

/-- C3: the failure path does not restore the account. (a) At the concrete failing
input — generic failure "Failed to convert PDF page", 2 units reserved of which 1 came
from the paid tier — nothing at all is refunded, the balance stays at its depleted
value, yet the job is marked error and the user is told the limit was returned.
(b) Even an LLM/config-classified failure ("openrouter timeout") credits the whole
reserved amount to the free tier instead of the tiers it was deducted from. This
contradicts the claim (and the handler's own notification text), so the code, not the
claim, is wrong. -/
theorem C3_total_failure_does_not_restore_balance :
    (handle_task_failure "Failed to convert PDF page" 2 0 3 ⟨0, some 1⟩).account
      = ⟨0, some 1⟩
    ∧ (handle_task_failure "Failed to convert PDF page" 2 0 3 ⟨0, some 1⟩).refundedToFree
      = 0
    ∧ (handle_task_failure "Failed to convert PDF page" 2 0 3 ⟨0, some 1⟩).userToldRefunded
      = true
    ∧ (handle_task_failure "Failed to convert PDF page" 2 0 3 ⟨0, some 1⟩).docStatus
      = "error"
    ∧ (handle_task_failure "openrouter timeout" 2 0 3 ⟨0, some 1⟩).account
      = ⟨2, some 1⟩ := by
  decide

/-- What the PDF cost reconciliation step leaves behind. -/
structure ReconcileResult where
  account : UserAccount
  totalDeducted : Int
  docStatus : String
  stopped : Bool
deriving DecidableEq, Repr

/-- The mid-job cost reconciliation of `process_document_task` (`celery_app.py` lines
404-437): with `llm_page_count` pages needing the expensive path and 1 unit already
reserved at submission, the delta is `llm_page_count - 1`. If the account cannot cover
the delta, the pre-reserved unit is credited back (`free_limits_remaining += 1`), the
job is marked error and processing stops (the user is notified and the handler
returns). Otherwise the delta is deducted free-tier first, and
`total_deducted_limits` becomes `llm_page_count`. -/
def reconcile_pdf_limits (llmPageCount : Int) (u : UserAccount) : ReconcileResult :=
  if llmPageCount > 0 then
    let additional := llmPageCount - 1
    let total := u.free + u.balance.getD 0
    if total < additional then
      ⟨{ u with free := u.free + 1 }, 1, "error", true⟩
    else
      let freeCut := if u.free ≥ additional then additional else u.free
      let remaining := additional - freeCut
      ⟨{ free := u.free - freeCut,
          balance := if remaining > 0 then u.balance.map (fun p => p - remaining)
            else u.balance },
        llmPageCount, "processing", false⟩
  else ⟨u, 1, "processing", false⟩

/-- C7: whenever the delta reservation fails for insufficient balance, the original
reservation (1 unit) is fully refunded, the job is marked error, processing stops, and
the account's net balance returns to its pre-attempt value (`avail + 1` undoes the
1-unit submission reservation); and concretely Scenario D — 1 pre-reserved, true cost
3, only 1 unit left — fails the delta of 2 and refunds the original 1. -/
theorem C7_delta_reservation_failure_refunds_original (u : UserAccount) (llm : Int)
    (hpos : 0 < llm) (hins : u.free + u.balance.getD 0 < llm - 1) :
    reconcile_pdf_limits llm u = ⟨{ u with free := u.free + 1 }, 1, "error", true⟩
    ∧ (reconcile_pdf_limits llm u).account.avail = u.avail + 1
    ∧ reconcile_pdf_limits 3 ⟨1, some 0⟩ = ⟨⟨2, some 0⟩, 1, "error", true⟩ := by
  have h1 : reconcile_pdf_limits llm u = ⟨{ u with free := u.free + 1 }, 1, "error", true⟩ := by
    unfold reconcile_pdf_limits
    simp [hpos, hins]
  refine ⟨h1, ?_, by decide⟩
  rw [h1]
  simp [UserAccount.avail]
  omega

/-- Witness for C7 at Scenario D itself (free=1, purchased=0, true cost 3). -/
theorem C7_delta_reservation_failure_refunds_original_witness :
    reconcile_pdf_limits 3 ⟨1, some 0⟩ = ⟨⟨2, some 0⟩, 1, "error", true⟩ :=
  (C7_delta_reservation_failure_refunds_original ⟨1, some 0⟩ 3 (by decide) (by decide)).1

/-- A `documents` row as the stale-job sweep sees it (`app/models/document.py`):
status and creation time (in minutes, matching the threshold's unit). -/
structure StaleDoc where
  id : Nat
  user_id : Nat
  status : String
  created_at : Int
deriving DecidableEq, Repr

/-- The state the sweep touches: the documents table and each user's
`free_limits_remaining` keyed by user id. -/
structure SweepState where
  docs : List StaleDoc
  users : List (Nat × Int)
deriving DecidableEq, Repr

/-- `celery_app.py` line 88. -/
def STALE_DOCUMENT_MINUTES : Int := 30

/-- The sweep's selection predicate (lines 584-589): status in pending/processing and
created strictly before the cutoff. -/
def isStaleDoc (since : Int) (d : StaleDoc) : Bool :=
  (d.status == "pending" || d.status == "processing") && d.created_at < since

/-- `user_row.free_limits_remaining += 1` on the row selected `FOR UPDATE` by id
(lines 596-600); a missing user row means no credit, as in the code. -/
def bumpUserFree (users : List (Nat × Int)) (uid : Nat) : List (Nat × Int) :=
  match users with
  | [] => []
  | (k, v) :: tl => if k == uid then (k, v + 1) :: tl else (k, v) :: bumpUserFree tl uid

/-- The `scalar_one_or_none` lookup of a user's free counter by id. -/
def findUserFree (users : List (Nat × Int)) (uid : Nat) : Option Int :=
  match users with
  | [] => none
  | (k, v) :: tl => if k == uid then some v else findUserFree tl uid

/-- `cleanup_stale_documents_task` (`celery_app.py` lines 572-621): select the stale
documents, then per document credit one unit to the owner's free tier and mark the
document error (each iteration commits; the selection is computed once up front, which
the fold mirrors since processed documents leave the stale set). -/
def cleanup_stale_documents_task (now : Int) (s : SweepState) : SweepState :=
  let since := now - STALE_DOCUMENT_MINUTES
  let staleDocs := s.docs.filter (isStaleDoc since)
  { users := staleDocs.foldl (fun us d => bumpUserFree us d.user_id) s.users,
    docs := s.docs.map (fun d =>
      if isStaleDoc since d then { d with status := "error" } else d) }

/-- A document is never stale again after one pass: either it was stale and is now
errored (error status is excluded from the sweep), or it was untouched. -/
theorem isStaleDoc_after_mark (since : Int) (d : StaleDoc) :
    isStaleDoc since (if isStaleDoc since d then { d with status := "error" } else d)
      = false := by
  by_cases h : isStaleDoc since d = true
  · rw [if_pos h]
    simp [isStaleDoc]
  · rw [if_neg h]
    simpa using h

/-- The sweep is idempotent on the whole state: a second pass at the same time finds
no stale document and changes nothing. -/
theorem cleanup_stale_idempotent (now : Int) (s : SweepState) :
    cleanup_stale_documents_task now (cleanup_stale_documents_task now s)
      = cleanup_stale_documents_task now s := by
  unfold cleanup_stale_documents_task
  have hfilter : (s.docs.map (fun d =>
      if isStaleDoc (now - STALE_DOCUMENT_MINUTES) d then { d with status := "error" }
      else d)).filter (isStaleDoc (now - STALE_DOCUMENT_MINUTES)) = [] := by
    rw [List.filter_eq_nil_iff]
    intro a ha
    rw [List.mem_map] at ha
    obtain ⟨d, _, rfl⟩ := ha
    simp [isStaleDoc_after_mark]
  simp only [hfilter, List.foldl_nil, List.map_map]
  congr 1
  apply List.map_congr_left
  intro d _
  simp [Function.comp, isStaleDoc_after_mark]

/-- Crediting a user's row bumps exactly the looked-up counter by one. -/
theorem findUserFree_bump (users : List (Nat × Int)) (uid : Nat) :
    findUserFree (bumpUserFree users uid) uid
      = (findUserFree users uid).map (fun v => v + 1) := by
  induction users with
  | nil => rfl
  | cons hd tl ih =>
    obtain ⟨k, v⟩ := hd
    by_cases hk : (k == uid) = true
    · simp [bumpUserFree, findUserFree, hk]
    · have hk' : (k == uid) = false := by simpa using hk
      simp [bumpUserFree, findUserFree, hk', ih]

/-- C9: for a job stuck past the staleness threshold (here the sole stale document),
running the sweep twice refunds exactly once: the second pass is a no-op on the whole
state, the first pass credits exactly one unit to the owner's free tier, and the
document is marked error — which is what excludes it from every later sweep. -/
theorem C9_stale_sweep_refunds_exactly_once (now : Int) (s : SweepState)
    (d : StaleDoc) (f : Int)
    (hf : s.docs.filter (isStaleDoc (now - STALE_DOCUMENT_MINUTES)) = [d])
    (hu : findUserFree s.users d.user_id = some f) :
    cleanup_stale_documents_task now (cleanup_stale_documents_task now s)
      = cleanup_stale_documents_task now s
    ∧ findUserFree (cleanup_stale_documents_task now s).users d.user_id = some (f + 1)
    ∧ { d with status := "error" } ∈ (cleanup_stale_documents_task now s).docs := by
  refine ⟨cleanup_stale_idempotent now s, ?_, ?_⟩
  · simp only [cleanup_stale_documents_task]
    rw [hf]
    simp only [List.foldl_cons, List.foldl_nil]
    rw [findUserFree_bump, hu]
    rfl
  · have hd : d ∈ s.docs.filter (isStaleDoc (now - STALE_DOCUMENT_MINUTES)) := by
      rw [hf]
      exact List.mem_singleton_self d
    rw [List.mem_filter] at hd
    obtain ⟨hdm, hds⟩ := hd
    simp only [cleanup_stale_documents_task]
    refine List.mem_map.mpr ⟨d, hdm, ?_⟩
    rw [if_pos hds]

/-- Witness for C9: one pending document created at minute 0, swept at minute 100;
its owner's free counter goes from 5 to 6 exactly once. -/
theorem C9_stale_sweep_refunds_exactly_once_witness :
    findUserFree
        (cleanup_stale_documents_task 100 ⟨[⟨1, 7, "pending", 0⟩], [(7, 5)]⟩).users 7
      = some 6 :=
  (C9_stale_sweep_refunds_exactly_once 100 ⟨[⟨1, 7, "pending", 0⟩], [(7, 5)]⟩
    ⟨1, 7, "pending", 0⟩ 5 (by decide) (by decide)).2.1
